import Mathlib

/-!
Shallow embedding of the NED voyage-planning route engine.

Sources embedded (Python → Lean):
- `src/ned/utils/parsing.py` (`split_waypoints`, `parse_lat_lon`)
- `src/ned/utils/validation.py` (`is_valid_lat`, `is_valid_lon`, `validate_lat_lon`)
- `src/ned/services/route_service.py` (`build_route_from_text`)
- `src/ned/services/route_calc_service.py` (`compute_route_calculation`)
- `src/ned/services/route_warnings_service.py` (`compute_route_warnings`)
- `src/app.py` (`dms_to_decimal`, `_validate_coord_range`, `parse_single_coord`,
  `parse_waypoints_mixed`, `hours_to_hhmm`, the route-planner submission gate)

Python `float` values are modelled as `ℚ`; machine floats' binary rounding is
not modelled.  Python strings are modelled as `String`/`List Char`; whitespace
is the six ASCII whitespace characters recognised by `str.strip`/`\s`.
`float(...)` literal parsing is modelled for sign/digits/fraction forms (the
exponent and inf/nan forms never arise in the embedded call sites).
-/

namespace NED

/-- ASCII whitespace, as matched by Python `str.strip`, `str.split()` and `\s`. -/
def isPySpace (c : Char) : Bool :=
  c = ' ' || c = '\t' || c = '\n' || c = '\r' || c = '\x0b' || c = '\x0c'

/-- Python `str.strip()` on a character list. -/
def pyStrip (l : List Char) : List Char :=
  ((l.dropWhile isPySpace).reverse.dropWhile isPySpace).reverse

/-- Python `str.strip()` on a `String`. -/
def pyStripStr (s : String) : String :=
  ⟨pyStrip s.data⟩

/-- Numeric value of a digit string (most significant first). -/
def natOfDigits (l : List Char) : ℕ :=
  l.foldl (fun acc c => 10 * acc + (c.toNat - 48)) 0

/-- Value of an unsigned decimal literal `ds.fs`; an absent fraction is `[]`. -/
def decValue (ds fs : List Char) : ℚ :=
  (natOfDigits ds : ℚ) + (natOfDigits fs : ℚ) / 10 ^ fs.length

/-- Unsigned core of Python `float(...)` literal parsing:
`digits`, `digits.digits?`, `.digits` (whole input consumed). -/
def decCore (l : List Char) : Option ℚ :=
  let p := l.span Char.isDigit
  match p.2 with
  | [] => if p.1 = [] then none else some (natOfDigits p.1)
  | '.' :: r2 =>
    let q := r2.span Char.isDigit
    if q.2 ≠ [] then none
    else if p.1 = [] && q.1 = [] then none
    else some (decValue p.1 q.1)
  | _ => none

/-- Python `float(token)` on an already-stripped token (literal forms only). -/
def pyFloatOpt (l : List Char) : Option ℚ :=
  match l with
  | '+' :: r => decCore r
  | '-' :: r => (decCore r).map (fun v => -v)
  | _ => decCore l

/-- Floor of a rational, computed directly from its normal form. -/
def ratFloor (x : ℚ) : ℤ :=
  Int.fdiv x.num (x.den : ℤ)

/-- Python `round(x)`: round half to even, as an integer. -/
def pyRoundHE (x : ℚ) : ℤ :=
  let f := ratFloor x
  let r := x - (f : ℚ)
  if r < 1/2 then f
  else if 1/2 < r then f + 1
  else if f % 2 = 0 then f else f + 1

/-- Python `round(x, n)` for `n` decimal digits. -/
def roundTo (n : ℕ) (x : ℚ) : ℚ :=
  (pyRoundHE (x * 10 ^ n) : ℚ) / 10 ^ n

/-- Python `f"{q:.1f}"`: fixed-point rendering with one decimal digit. -/
def formatFixed1 (q : ℚ) : String :=
  let t := pyRoundHE (q * 10)
  if t < 0 then
    "-" ++ toString ((-t) / 10) ++ "." ++ toString ((-t) % 10)
  else
    toString (t / 10) ++ "." ++ toString (t % 10)

/-- Python `f"{n:02d}"` for the values arising here. -/
def pad2 (n : ℤ) : String :=
  if 0 ≤ n ∧ n < 10 then "0" ++ toString n else toString n

/-- `hasPrefixL pre l`: `pre` is a prefix of `l` (decidable, executable). -/
def hasPrefixL : List Char → List Char → Bool
  | [], _ => true
  | _ :: _, [] => false
  | a :: as, b :: bs => a = b && hasPrefixL as bs

/-- `containsSub sub l`: `sub` occurs as a contiguous sublist of `l`. -/
def containsSub (sub : List Char) : List Char → Bool
  | [] => hasPrefixL sub []
  | c :: rest => hasPrefixL sub (c :: rest) || containsSub sub rest

/-- Python `sub in s` on strings. -/
def strContains (s sub : String) : Bool :=
  containsSub sub.data s.data

/-- Python `str.split()` (split on whitespace runs, dropping empties). -/
def splitWs : List Char → List (List Char)
  | [] => []
  | c :: rest =>
    if isPySpace c then splitWs rest
    else (c :: rest.takeWhile (fun x => !isPySpace x)) ::
      splitWs (rest.dropWhile (fun x => !isPySpace x))
termination_by l => l.length
decreasing_by
  · simp only [List.length_cons]; omega
  · simp only [List.length_cons]
    exact Nat.lt_succ_of_le (List.dropWhile_sublist _).length_le

/-- Split a character list at `'\n'` (the separators are dropped). -/
def splitOnNl : List Char → List (List Char)
  | [] => [[]]
  | c :: rest =>
    if c = '\n' then [] :: splitOnNl rest
    else
      match splitOnNl rest with
      | [] => [[c]]
      | l :: ls => (c :: l) :: ls

/-! ## `src/ned/utils/parsing.py` -/

/-- `split_waypoints`: one waypoint per line, stripped, blanks dropped.
(Python `str.splitlines` is modelled for `\n`-separated text; blank-line
handling agrees after the non-blank filter.) -/
def split_waypoints (text : String) : List String :=
  ((splitOnNl text.data).map (fun l => (⟨pyStrip l⟩ : String))).filter
    (fun ln => ln ≠ "")

/-- `\d+(\.\d+)?` with anything after it returned as the rest (the fraction
group is taken only when `.` is followed by at least one digit, as a
backtracking regex engine would). -/
def parseDecUnsignedTok (l : List Char) : Option (ℚ × List Char) :=
  let p := l.span Char.isDigit
  if p.1 = [] then none
  else
    match p.2 with
    | '.' :: r2 =>
      let q := r2.span Char.isDigit
      if q.1 = [] then some ((natOfDigits p.1 : ℚ), p.2)
      else some (decValue p.1 q.1, q.2)
    | _ => some ((natOfDigits p.1 : ℚ), p.2)

/-- `-?\d+(\.\d+)?` with anything after it returned as the rest:
the number-token part of `_COORD_RE`. -/
def parseDecTok (l : List Char) : Option (ℚ × List Char) :=
  match l with
  | '-' :: r => (parseDecUnsignedTok r).map (fun p => (-p.1, p.2))
  | _ => parseDecUnsignedTok l

/-- The separator class `[,;\s]` of `_COORD_RE`. -/
def isSepClass (c : Char) : Bool :=
  isPySpace c || c = ',' || c = ';'

/-- `_COORD_RE` matching: `^\s*(-?\d+(\.\d+)?)\s*[,;\s]\s*(-?\d+(\.\d+)?)\s*$`.
The middle `\s*[,;\s]\s*` group is equivalent to: a non-empty run of
separator-class characters containing at most one `,`/`;`. -/
def parse_lat_lon_core (l : List Char) : Option (ℚ × ℚ) :=
  match parseDecTok (l.dropWhile isPySpace) with
  | none => none
  | some (lat, r1) =>
    let p := r1.span isSepClass
    if p.1 = [] then none
    else if 1 < (p.1.filter (fun c => !isPySpace c)).length then none
    else
      match parseDecTok p.2 with
      | none => none
      | some (lon, r3) =>
        if r3.dropWhile isPySpace = [] then some (lat, lon) else none

/-- `parse_lat_lon`: decimal lat/lon pair per `_COORD_RE`, else `None`. -/
def parse_lat_lon (raw : String) : Option (ℚ × ℚ) :=
  parse_lat_lon_core raw.data

/-! ## `src/ned/utils/validation.py` -/

structure ValidationError where
  field : String
  message : String
deriving DecidableEq

def is_valid_lat (lat : ℚ) : Bool :=
  decide (-90 ≤ lat ∧ lat ≤ 90)

def is_valid_lon (lon : ℚ) : Bool :=
  decide (-180 ≤ lon ∧ lon ≤ 180)

def validate_lat_lon (lat lon : ℚ) : List ValidationError :=
  (if is_valid_lat lat then [] else
    [⟨"lat", "Latitude must be between -90 and 90."⟩]) ++
  (if is_valid_lon lon then [] else
    [⟨"lon", "Longitude must be between -180 and 180."⟩])

/-! ## `src/ned/services/route_service.py` -/

structure Waypoint where
  label : String
  lat : ℚ
  lon : ℚ
deriving DecidableEq

structure RouteBuildResult where
  waypoints : List Waypoint
  errors : List String
  warnings : List String
deriving DecidableEq

/-- The `LocationResolver` protocol: `resolve(name)` and `suggest(q, limit)`.
Modelled as total functions (the Python `try/except` around `suggest`
collapses a raising `suggest` to `[]`, which a total function also covers). -/
structure LocationResolver where
  resolve : String → Option (ℚ × ℚ)
  suggest : String → ℕ → List String

/-- `_format_validation_errors`. -/
def format_validation_errors (idx : ℕ) (raw : String) (v : List ValidationError) :
    List String :=
  v.map (fun e => "[Line " ++ toString idx ++ "] " ++ e.message ++
    " (input: '" ++ raw ++ "')")

/-- One iteration of the `build_route_from_text` loop body (lines 44-85):
the waypoints and errors this line appends. -/
def process_line (resolver : LocationResolver) (idx : ℕ) (rp : String) :
    List Waypoint × List String :=
  let raw := pyStripStr rp
  if raw = "" then ([], [])
  else
    match parse_lat_lon raw with
    | some (lat, lon) =>
      let v := validate_lat_lon lat lon
      if v ≠ [] then ([], format_validation_errors idx raw v)
      else ([⟨"WP" ++ toString idx, lat, lon⟩], [])
    | none =>
      match resolver.resolve raw with
      | none =>
        let suggestions := resolver.suggest raw 3
        if suggestions ≠ [] then
          ([], ["[Line " ++ toString idx ++ "] Unknown location: '" ++ raw ++
            "'. Did you mean: " ++ String.intercalate ", " suggestions ++ "?"])
        else
          ([], ["[Line " ++ toString idx ++
            "] Unknown location or invalid coordinates: '" ++ raw ++ "'"])
      | some (lat, lon) =>
        let v := validate_lat_lon lat lon
        if v ≠ [] then ([], format_validation_errors idx raw v)
        else ([⟨raw, lat, lon⟩], [])

/-- `build_route_from_text`: fold the loop body over the enumerated lines
(accumulators `waypoints`, `errors`), then the trailing structural warning. -/
def build_route_from_text (text : String) (resolver : LocationResolver) :
    RouteBuildResult :=
  let raw_points := split_waypoints text
  let acc := (List.enumFrom 1 raw_points).foldl
    (fun acc p =>
      let out := process_line resolver p.1 p.2
      (acc.1 ++ out.1, acc.2 ++ out.2))
    (([] : List Waypoint), ([] : List String))
  let warnings :=
    if acc.1.length < 2 ∧ acc.2 = [] then
      ["Add at least 2 waypoints to build a route."]
    else []
  ⟨acc.1, acc.2, warnings⟩

/-! ## `src/app.py`: coordinate parser -/

/-- `FormatError` / `RangeError` taxonomy: `ValueError`s raised by
`parse_single_coord`; a range violation carries the offending value. -/
inductive CoordError where
  | format (msg : String) : CoordError
  | range (offending : ℚ) : CoordError
deriving DecidableEq

inductive Axis where
  | lat : Axis
  | lon : Axis
deriving DecidableEq

/-- `_clean_coord_text`: strip, then normalise Unicode degree/quote variants. -/
def clean_coord_text (l : List Char) : List Char :=
  (pyStrip l).map (fun c =>
    if c = 'º' then '°'
    else if c = '’' then '\''
    else if c = '′' then '\''
    else if c = '”' then '"'
    else if c = '″' then '"'
    else c)

/-- Python `abs` on a rational. -/
def pyAbs (q : ℚ) : ℚ :=
  if q < 0 then -q else q

/-- `dms_to_decimal`. -/
def dms_to_decimal (deg minutes seconds : ℚ) (hemi : List Char) : ℚ :=
  let value := pyAbs deg + minutes / 60 + seconds / 3600
  if hemi.map Char.toUpper = ['S'] ∨ hemi.map Char.toUpper = ['W'] then
    -value
  else value

/-- `_validate_coord_range`. -/
def validate_coord_range (val : ℚ) (coord_type : Axis) : Except CoordError Unit :=
  match coord_type with
  | .lat => if ¬(-90 ≤ val ∧ val ≤ 90) then .error (.range val) else .ok ()
  | .lon => if ¬(-180 ≤ val ∧ val ≤ 180) then .error (.range val) else .ok ()

/-- `re.fullmatch(r"[+-]?\d+(\.\d+)?", t)` as a Boolean. -/
def isSignedDecLit (l : List Char) : Bool :=
  let core := fun (cs : List Char) =>
    let p := cs.span Char.isDigit
    if p.1 = [] then false
    else
      match p.2 with
      | [] => true
      | '.' :: fs => decide (fs ≠ []) && fs.all Char.isDigit
      | _ => false
  match l with
  | '+' :: r => core r
  | '-' :: r => core r
  | _ => core l

/-- The DM/DMS branch of `parse_single_coord` (lines 239-270), up to but not
including the range validation: strip coordinate symbols to spaces, split,
check the hemisphere part, convert the 2 or 3 numeric parts. -/
def parse_dms_parts (t : List Char) : Except CoordError (ℚ × ℚ × ℚ × List Char) :=
  let work := t.map (fun c =>
    if c = '°' then ' '
    else if c = '\'' then ' '
    else if c = '"' then ' '
    else if c = ',' then ' '
    else c)
  let parts := splitWs work
  if parts.length < 3 then
    .error (.format "Invalid coordinate. Use decimal (44.16) or DM/DMS (44 10.2 N).")
  else
    let hemi := parts.getLastD []
    if ¬(hemi = ['N'] ∨ hemi = ['S'] ∨ hemi = ['E'] ∨ hemi = ['W']) then
      .error (.format "Missing hemisphere (N/S/E/W).")
    else
      let nums := parts.dropLast
      match nums with
      | [a, b] =>
        match pyFloatOpt a, pyFloatOpt b with
        | some deg, some minutes => .ok (deg, minutes, 0, hemi)
        | _, _ => .error (.format "could not convert string to float")
      | [a, b, c] =>
        match pyFloatOpt a, pyFloatOpt b, pyFloatOpt c with
        | some deg, some minutes, some seconds => .ok (deg, minutes, seconds, hemi)
        | _, _, _ => .error (.format "could not convert string to float")
      | _ =>
        .error (.format "Invalid coordinate. Example: 44 10.2 N, 28 39.0 E")

/-- The cleaned, uppercased token `t` of `parse_single_coord`. -/
def cleanUpper (token : String) : List Char :=
  (clean_coord_text token.data).map Char.toUpper

/-- `parse_single_coord` up to but not including `_validate_coord_range`:
the value the parser computes before the range check. -/
def parse_coord_value (t : List Char) : Except CoordError ℚ :=
  if isSignedDecLit t then
    match pyFloatOpt t with
    | some val => .ok val
    | none => .error (.format "could not convert string to float")
  else
    match parse_dms_parts t with
    | .error e => .error e
    | .ok (deg, minutes, seconds, hemi) => .ok (dms_to_decimal deg minutes seconds hemi)

/-- `parse_single_coord`. -/
def parse_single_coord (token : String) (coord_type : Axis) : Except CoordError ℚ :=
  match parse_coord_value (cleanUpper token) with
  | .error e => .error e
  | .ok val =>
    match validate_coord_range val coord_type with
    | .error e => .error e
    | .ok _ => .ok val

/-! ## `src/app.py`: `hours_to_hhmm`, `parse_waypoints_mixed` -/

/-- `hours_to_hhmm`: `None → "-"`, else zero-padded `HH:MM` from
`divmod(int(round(h * 60)), 60)` (Python `divmod` is floor division). -/
def hours_to_hhmm (hours_float : Option ℚ) : String :=
  match hours_float with
  | none => "-"
  | some h =>
    let total_minutes := pyRoundHE (h * 60)
    pad2 (Int.fdiv total_minutes 60) ++ ":" ++ pad2 (Int.fmod total_minutes 60)

/-- One line of `parse_waypoints_mixed`: if the line has a comma, split on the
first comma and try `float` on both halves; otherwise (or on `ValueError`)
fall through to `resolve_location`. -/
def parse_waypoints_mixed_line
    (resolve_location : String → Option (ℚ × ℚ × String)) (ln : String) :
    Except String (ℚ × ℚ) :=
  let fallback :=
    match resolve_location ln with
    | none => .error ("Location not found: " ++ ln ++
        ". Use coordinates or ask admin to add it.")
    | some (lat, lon, _) => Except.ok (lat, lon)
  if ln.data.contains ',' then
    let a := ln.data.takeWhile (fun c => c ≠ ',')
    let b := (ln.data.dropWhile (fun c => c ≠ ',')).drop 1
    match pyFloatOpt (pyStrip a), pyFloatOpt (pyStrip b) with
    | some lat, some lon => Except.ok (lat, lon)
    | _, _ => fallback
  else fallback

/-- `parse_waypoints_mixed`: fail-fast loop over the non-blank lines, then the
minimum-count check. -/
def parse_waypoints_mixed (waypoints_text : String)
    (resolve_location : String → Option (ℚ × ℚ × String)) :
    Except String (List (ℚ × ℚ)) := do
  let lines := ((splitOnNl waypoints_text.data).map
    (fun l => (⟨pyStrip l⟩ : String))).filter (fun ln => ln ≠ "")
  let points ← lines.mapM (parse_waypoints_mixed_line resolve_location)
  if points.length < 2 then
    .error "You need at least 2 waypoints (coords or saved locations)."
  else
    pure points

/-! ## `src/ned/services/route_calc_service.py` -/

/-- One element of `segments_out` (the Python dict built per leg). -/
structure SegOut where
  from_lat : ℚ
  from_lon : ℚ
  to_lat : ℚ
  to_lon : ℚ
  distance_nm : ℚ
  bearing_deg : ℚ
  eta_hours : ℚ
  eta_hhmm : String
deriving DecidableEq

structure CalcResult where
  speed_kn : ℚ
  total_nm : ℚ
  total_eta_hours : ℚ
  total_eta_hhmm : String
  segments : List SegOut
deriving DecidableEq

/-- The `for i in range(len(points) - 1)` loop of `compute_route_calculation`,
with accumulators `segments_out`, `total_nm`, `total_hours`. -/
def calcLoop (speed_kn : ℚ) (hav brg : ℚ → ℚ → ℚ → ℚ → ℚ)
    (hhmm : ℚ → String) :
    List (ℚ × ℚ) → List SegOut → ℚ → ℚ → List SegOut × ℚ × ℚ
  | p1 :: p2 :: rest, segs, total_nm, total_hours =>
    let dist_nm := hav p1.1 p1.2 p2.1 p2.2
    let brng := brg p1.1 p1.2 p2.1 p2.2
    let seg_hours := dist_nm / speed_kn
    let seg : SegOut :=
      ⟨p1.1, p1.2, p2.1, p2.2, roundTo 2 dist_nm, roundTo 1 brng,
        roundTo 2 seg_hours, hhmm seg_hours⟩
    calcLoop speed_kn hav brg hhmm (p2 :: rest) (segs ++ [seg])
      (total_nm + dist_nm) (total_hours + seg_hours)
  | _, segs, total_nm, total_hours => (segs, total_nm, total_hours)

/-- `compute_route_calculation` (identical in `route_calc_service.py` and
`app.py`); the haversine/bearing/hhmm callables are parameters, as in the
source. -/
def compute_route_calculation (points : List (ℚ × ℚ)) (speed_kn : ℚ)
    (hav brg : ℚ → ℚ → ℚ → ℚ → ℚ) (hhmm : ℚ → String) :
    Except String CalcResult :=
  if speed_kn ≤ 0 then .error "Speed must be > 0 knots."
  else if points.length < 2 then .error "Add at least 2 waypoints to compute a route."
  else
    let out := calcLoop speed_kn hav brg hhmm points [] 0 0
    .ok ⟨speed_kn, roundTo 2 out.2.1, roundTo 2 out.2.2, hhmm out.2.2, out.1⟩

/-! ## `src/ned/services/route_warnings_service.py` -/

/-- The message of the first warning (`very long`). -/
def veryLongMsg (segNo : ℕ) (dist_nm : ℚ) : String :=
  "Segment " ++ toString segNo ++ " is very long (" ++ formatFixed1 dist_nm ++
    " NM). Check waypoint spacing."

/-- The message of the second warning (`navigation jump`). -/
def navJumpMsg (segNo : ℕ) : String :=
  "Segment " ++ toString segNo ++ " may indicate a navigation jump."

/-- The warnings the leg `points[i] → points[i+1]` appends. -/
def legWarnings (i : ℕ) (dist_nm max_segment_nm : ℚ) : List String :=
  (if max_segment_nm < dist_nm then [veryLongMsg (i + 1) dist_nm] else []) ++
  (if max_segment_nm * 2 < dist_nm then [navJumpMsg (i + 1)] else [])

/-- The `for i in range(len(points) - 1)` loop of `compute_route_warnings`,
with the `warnings` accumulator. -/
def warnLoop (hav : ℚ → ℚ → ℚ → ℚ → ℚ) (max_segment_nm : ℚ) :
    ℕ → List (ℚ × ℚ) → List String → List String
  | i, p1 :: p2 :: rest, acc =>
    warnLoop hav max_segment_nm (i + 1) (p2 :: rest)
      (acc ++ legWarnings i (hav p1.1 p1.2 p2.1 p2.2) max_segment_nm)
  | _, _, acc => acc

/-- `compute_route_warnings`; the Python default for `max_segment_nm`
is 50.0 (callers passing no threshold get 50). -/
def compute_route_warnings (points : List (ℚ × ℚ)) (hav : ℚ → ℚ → ℚ → ℚ → ℚ)
    (max_segment_nm : ℚ) : List String :=
  if points.length < 2 then []
  else warnLoop hav max_segment_nm 0 points []

/-! ## `src/app.py`: route-planner submission gate (lines 993-1008)

`route_planner` builds the route, raises (rejecting the submission) when
`build.errors` is non-empty, and only otherwise computes a calculation. -/

def route_planner_calc (text : String) (resolver : LocationResolver) (speed_kn : ℚ)
    (hav brg : ℚ → ℚ → ℚ → ℚ → ℚ) : Option CalcResult :=
  let build := build_route_from_text text resolver
  if build.errors ≠ [] then none
  else
    let points := build.waypoints.map (fun w => (w.lat, w.lon))
    (compute_route_calculation points speed_kn hav brg
      (fun h => hours_to_hhmm (some h))).toOption

/-! ## Example resolvers used in concrete instances -/

/-- A directory that resolves nothing and has no suggestions. -/
def noResolver : LocationResolver :=
  ⟨fun _ => none, fun _ _ => []⟩

/-- A directory that resolves nothing but offers two fuzzy suggestions. -/
def sugResolver : LocationResolver :=
  ⟨fun _ => none, fun _ _ => ["Constanta", "Corfu"]⟩

/-- A directory containing exactly the location `Constanta`. -/
def constantaResolver : LocationResolver :=
  ⟨fun n => if n = "Constanta" then some (44, 28) else none, fun _ _ => []⟩

instance {ε α : Type} [DecidableEq ε] [DecidableEq α] : DecidableEq (Except ε α)
  | .ok a, .ok b =>
    if h : a = b then .isTrue (by rw [h])
    else .isFalse (fun he => h (by cases he; rfl))
  | .error a, .error b =>
    if h : a = b then .isTrue (by rw [h])
    else .isFalse (fun he => h (by cases he; rfl))
  | .ok _, .error _ => .isFalse (fun he => by cases he)
  | .error _, .ok _ => .isFalse (fun he => by cases he)

/-! ## List helpers -/

/-- The first element of `l` (if any) falsifies `p`. -/
def headFails (p : Char → Bool) (l : List Char) : Prop :=
  ∀ c cs, l = c :: cs → p c = false

theorem headFails_nil {p : Char → Bool} : headFails p [] :=
  fun _ _ h => by cases h

theorem headFails_cons {p : Char → Bool} {c : Char} {cs : List Char}
    (h : p c = false) : headFails p (c :: cs) :=
  fun _ _ he => by cases he; exact h

theorem takeWhile_eq_nil_of_headFails {p : Char → Bool} {l : List Char}
    (h : headFails p l) : l.takeWhile p = [] := by
  cases l with
  | nil => rfl
  | cons c cs => simp [List.takeWhile_cons, h c cs rfl]

theorem dropWhile_eq_self_of_headFails {p : Char → Bool} {l : List Char}
    (h : headFails p l) : l.dropWhile p = l := by
  cases l with
  | nil => rfl
  | cons c cs => simp [List.dropWhile_cons, h c cs rfl]

theorem span_append {p : Char → Bool} {l₁ l₂ : List Char}
    (h₁ : ∀ c ∈ l₁, p c = true) (h₂ : headFails p l₂) :
    (l₁ ++ l₂).span p = (l₁, l₂) := by
  rw [List.span_eq_take_drop, List.takeWhile_append_of_pos h₁,
    List.dropWhile_append_of_pos h₁, takeWhile_eq_nil_of_headFails h₂,
    dropWhile_eq_self_of_headFails h₂, List.append_nil]

theorem span_all {p : Char → Bool} {l : List Char} (h : ∀ c ∈ l, p c = true) :
    l.span p = (l, []) := by
  have := @span_append p l [] h headFails_nil
  simpa using this

theorem isPySpace_isDigit_false {c : Char} (h : isPySpace c = true) :
    c.isDigit = false := by
  simp only [isPySpace, Bool.or_eq_true, decide_eq_true_eq] at h
  rcases h with ((((h | h) | h) | h) | h) | h <;> subst h <;> decide

theorem isPySpace_ne_dot {c : Char} (h : isPySpace c = true) : c ≠ '.' := by
  simp only [isPySpace, Bool.or_eq_true, decide_eq_true_eq] at h
  rcases h with ((((h | h) | h) | h) | h) | h <;> subst h <;> decide

theorem isDigit_not_pySpace {c : Char} (h : c.isDigit = true) :
    isPySpace c = false := by
  simp only [Char.isDigit] at h
  simp only [isPySpace, Bool.or_eq_false_iff, decide_eq_false_iff_not]
  refine ⟨⟨⟨⟨⟨?_, ?_⟩, ?_⟩, ?_⟩, ?_⟩, ?_⟩ <;> rintro rfl <;> simp_all

theorem isDigit_not_sepClass {c : Char} (h : c.isDigit = true) :
    isSepClass c = false := by
  simp only [Char.isDigit] at h
  simp only [isSepClass, isPySpace, Bool.or_eq_false_iff, decide_eq_false_iff_not]
  refine ⟨⟨⟨⟨⟨⟨⟨?_, ?_⟩, ?_⟩, ?_⟩, ?_⟩, ?_⟩, ?_⟩, ?_⟩ <;> rintro rfl <;> simp_all

/-! ## Decomposition of `build_route_from_text` -/

/-- The waypoints contributed by each enumerated line, in order. -/
def lineWaypoints (text : String) (resolver : LocationResolver) : List Waypoint :=
  ((List.enumFrom 1 (split_waypoints text)).map
    (fun p => (process_line resolver p.1 p.2).1)).flatten

/-- The errors contributed by each enumerated line, in order. -/
def lineErrors (text : String) (resolver : LocationResolver) : List String :=
  ((List.enumFrom 1 (split_waypoints text)).map
    (fun p => (process_line resolver p.1 p.2).2)).flatten

theorem buildLoop_eq (resolver : LocationResolver) (ps : List (ℕ × String))
    (w0 : List Waypoint) (e0 : List String) :
    ps.foldl (fun acc p =>
        let out := process_line resolver p.1 p.2
        (acc.1 ++ out.1, acc.2 ++ out.2)) (w0, e0) =
      (w0 ++ (ps.map (fun p => (process_line resolver p.1 p.2).1)).flatten,
       e0 ++ (ps.map (fun p => (process_line resolver p.1 p.2).2)).flatten) := by
  induction ps generalizing w0 e0 with
  | nil => simp
  | cons p ps ih => simp [ih, List.append_assoc]

theorem build_eq (text : String) (resolver : LocationResolver) :
    build_route_from_text text resolver =
      ⟨lineWaypoints text resolver, lineErrors text resolver,
        if (lineWaypoints text resolver).length < 2 ∧ lineErrors text resolver = []
        then ["Add at least 2 waypoints to build a route."] else []⟩ := by
  simp only [build_route_from_text]
  rw [buildLoop_eq]
  simp [lineWaypoints, lineErrors]

theorem validate_lat_lon_eq_nil {lat lon : ℚ} :
    validate_lat_lon lat lon = [] ↔
      (is_valid_lat lat = true ∧ is_valid_lon lon = true) := by
  unfold validate_lat_lon
  cases h1 : is_valid_lat lat <;> cases h2 : is_valid_lon lon <;> simp

/-! ## Claims -/

/-- C8: `build_route_from_text` never reports a too-few-waypoints condition as
an error: whenever all lines resolve (`errors = []`) but fewer than 2
waypoints were produced, the structural "need at least 2 waypoints" warning is
appended while `errors` stays empty. -/
theorem buildRoute_too_few_waypoints_is_warning (text : String)
    (resolver : LocationResolver)
    (he : (build_route_from_text text resolver).errors = [])
    (hw : (build_route_from_text text resolver).waypoints.length < 2) :
    (build_route_from_text text resolver).warnings =
      ["Add at least 2 waypoints to build a route."] ∧
    (build_route_from_text text resolver).errors = [] := by
  refine ⟨?_, he⟩
  have hE : lineErrors text resolver = [] := by
    rw [build_eq] at he; exact he
  have hW : (lineWaypoints text resolver).length < 2 := by
    rw [build_eq] at hw; exact hw
  rw [build_eq]
  simp [hE, hW]

/-- Witness for C8: a single valid coordinate line gives one waypoint, no
errors, and exactly the structural warning. -/
theorem buildRoute_too_few_waypoints_is_warning_witness :
    (build_route_from_text "45.0, 29.0" noResolver).warnings =
      ["Add at least 2 waypoints to build a route."] ∧
    (build_route_from_text "45.0, 29.0" noResolver).errors = [] :=
  buildRoute_too_few_waypoints_is_warning "45.0, 29.0" noResolver
    (by with_unfolding_all rfl) (by with_unfolding_all decide)

/-- C9: `hours_to_hhmm` computes `total_minutes = round(h * 60)`, splits it by
floor-divmod 60, and zero-pads both halves; `None` maps to `"-"`;
`hours_to_hhmm 0 = "00:00"`, `hours_to_hhmm 1.5 = "01:30"`. -/
theorem hours_to_hhmm_spec :
    (∀ h : ℚ, hours_to_hhmm (some h) =
      pad2 (Int.fdiv (pyRoundHE (h * 60)) 60) ++ ":" ++
        pad2 (Int.fmod (pyRoundHE (h * 60)) 60)) ∧
    hours_to_hhmm none = "-" ∧
    hours_to_hhmm (some 0) = "00:00" ∧
    hours_to_hhmm (some 1.5) = "01:30" := by
  refine ⟨fun h => rfl, rfl, by with_unfolding_all rfl, by with_unfolding_all rfl⟩

theorem process_line_waypoint_valid {resolver : LocationResolver} {idx : ℕ}
    {rp : String} {w : Waypoint} (h : w ∈ (process_line resolver idx rp).1) :
    is_valid_lat w.lat = true ∧ is_valid_lon w.lon = true := by
  simp only [process_line] at h
  split at h
  · simp at h
  · split at h
    · rename_i lat lon heq
      split at h
      · simp at h
      · rename_i hv
        rw [not_not] at hv
        simp only [List.mem_singleton] at h
        subst h
        exact validate_lat_lon_eq_nil.mp hv
    · split at h
      · split at h <;> simp at h
      · rename_i lat lon heq
        split at h
        · simp at h
        · rename_i hv
          rw [not_not] at hv
          simp only [List.mem_singleton] at h
          subst h
          exact validate_lat_lon_eq_nil.mp hv

/-- C2: `build_route_from_text` scans all non-blank lines in order with no
early stop — its error list is the concatenation, over every enumerated line,
of that line's errors, so every failing line contributes its entries; a text
with one unresolvable name among valid lines yields a non-empty error list
while later lines still produce waypoints; and the route-planner caller
produces no calculation whenever `errors` is non-empty. -/
theorem buildRoute_collects_all_errors :
    (∀ (text : String) (resolver : LocationResolver),
      (build_route_from_text text resolver).errors =
        ((List.enumFrom 1 (split_waypoints text)).map
          (fun p => (process_line resolver p.1 p.2).2)).flatten) ∧
    (∀ (text : String) (resolver : LocationResolver) (n : ℕ) (ln e : String),
      (n, ln) ∈ List.enumFrom 1 (split_waypoints text) →
      e ∈ (process_line resolver n ln).2 →
      e ∈ (build_route_from_text text resolver).errors) ∧
    (∀ (text : String) (resolver : LocationResolver) (speed_kn : ℚ)
      (hav brg : ℚ → ℚ → ℚ → ℚ → ℚ),
      (build_route_from_text text resolver).errors ≠ [] →
      route_planner_calc text resolver speed_kn hav brg = none) ∧
    (build_route_from_text "45.0, 29.0\nNowhereville\n44.0, 28.0" noResolver).errors
      = ["[Line 2] Unknown location or invalid coordinates: 'Nowhereville'"] ∧
    (build_route_from_text "45.0, 29.0\nNowhereville\n44.0, 28.0"
      noResolver).waypoints.length = 2 := by
  have herr : ∀ (text : String) (resolver : LocationResolver),
      (build_route_from_text text resolver).errors =
        ((List.enumFrom 1 (split_waypoints text)).map
          (fun p => (process_line resolver p.1 p.2).2)).flatten := by
    intro text resolver
    rw [build_eq]
    rfl
  refine ⟨herr, ?_, ?_, ?_, ?_⟩
  · intro text resolver n ln e hmem he
    rw [herr]
    exact List.mem_flatten_of_mem (List.mem_map_of_mem _ hmem) he
  · intro text resolver speed_kn hav brg h
    unfold route_planner_calc
    simp [h]
  · with_unfolding_all decide
  · with_unfolding_all decide

/-- Witness for C2: the unresolvable middle line's error is in the error list
of the concrete three-line route, and the route-planner caller yields no
calculation for it. -/
theorem buildRoute_collects_all_errors_witness :
    "[Line 2] Unknown location or invalid coordinates: 'Nowhereville'" ∈
      (build_route_from_text "45.0, 29.0\nNowhereville\n44.0, 28.0"
        noResolver).errors ∧
    route_planner_calc "45.0, 29.0\nNowhereville\n44.0, 28.0" noResolver 10
      (fun _ _ _ _ => 0) (fun _ _ _ _ => 0) = none :=
  ⟨buildRoute_collects_all_errors.2.1
      "45.0, 29.0\nNowhereville\n44.0, 28.0" noResolver 2 "Nowhereville" _
      (by with_unfolding_all decide) (by with_unfolding_all decide),
    buildRoute_collects_all_errors.2.2.1
      "45.0, 29.0\nNowhereville\n44.0, 28.0" noResolver 10 _ _
      (by with_unfolding_all decide)⟩

/-- C7: every waypoint in the result of `build_route_from_text` is
range-valid, whichever branch (coordinate parse or location resolution)
produced it. -/
theorem buildRoute_waypoints_in_range (text : String)
    (resolver : LocationResolver) (w : Waypoint)
    (h : w ∈ (build_route_from_text text resolver).waypoints) :
    (-90 ≤ w.lat ∧ w.lat ≤ 90) ∧ (-180 ≤ w.lon ∧ w.lon ≤ 180) := by
  rw [build_eq] at h
  have h' : w ∈ lineWaypoints text resolver := h
  unfold lineWaypoints at h'
  obtain ⟨l, hl, hw⟩ := List.mem_flatten.mp h'
  obtain ⟨p, _, rfl⟩ := List.mem_map.mp hl
  have := process_line_waypoint_valid hw
  constructor
  · have := this.1
    simpa [is_valid_lat] using this
  · have := this.2
    simpa [is_valid_lon] using this

/-- Witness for C7: the coordinate- and resolver-derived waypoints of a
concrete mixed route are range-valid. -/
theorem buildRoute_waypoints_in_range_witness :
    ((-90 ≤ (Waypoint.mk "WP1" 45 29).lat ∧ (Waypoint.mk "WP1" 45 29).lat ≤ 90) ∧
      (-180 ≤ (Waypoint.mk "WP1" 45 29).lon ∧ (Waypoint.mk "WP1" 45 29).lon ≤ 180)) ∧
    ((-90 ≤ (Waypoint.mk "Constanta" 44 28).lat ∧
        (Waypoint.mk "Constanta" 44 28).lat ≤ 90) ∧
      (-180 ≤ (Waypoint.mk "Constanta" 44 28).lon ∧
        (Waypoint.mk "Constanta" 44 28).lon ≤ 180)) := by
  have hwp : (build_route_from_text "45.0, 29.0\nConstanta"
      constantaResolver).waypoints =
      [⟨"WP1", 45, 29⟩, ⟨"Constanta", 44, 28⟩] := by
    with_unfolding_all decide
  exact ⟨buildRoute_waypoints_in_range "45.0, 29.0\nConstanta" constantaResolver
      ⟨"WP1", 45, 29⟩ (by rw [hwp]; exact List.mem_cons_self _ _),
    buildRoute_waypoints_in_range "45.0, 29.0\nConstanta" constantaResolver
      ⟨"Constanta", 44, 28⟩
      (by rw [hwp]; exact List.mem_cons_of_mem _ (List.mem_cons_self _ _))⟩

/-! ## Decomposition of the leg loops -/

/-- The consecutive pairs `(points[i], points[i+1])` traversed by the
`range(len(points) - 1)` loops. -/
def legsOf : List (ℚ × ℚ) → List ((ℚ × ℚ) × (ℚ × ℚ))
  | p1 :: p2 :: rest => (p1, p2) :: legsOf (p2 :: rest)
  | _ => []

/-- The haversine distance of one leg. -/
def legDist (hav : ℚ → ℚ → ℚ → ℚ → ℚ) (leg : (ℚ × ℚ) × (ℚ × ℚ)) : ℚ :=
  hav leg.1.1 leg.1.2 leg.2.1 leg.2.2

theorem warnLoop_eq (hav : ℚ → ℚ → ℚ → ℚ → ℚ) (m : ℚ) :
    ∀ (points : List (ℚ × ℚ)) (i : ℕ) (acc : List String),
      warnLoop hav m i points acc =
        acc ++ ((List.enumFrom i (legsOf points)).map
          (fun p => legWarnings p.1 (legDist hav p.2) m)).flatten
  | [], i, acc => by simp [warnLoop, legsOf]
  | [p], i, acc => by simp [warnLoop, legsOf]
  | p1 :: p2 :: rest, i, acc => by
    rw [warnLoop, warnLoop_eq hav m (p2 :: rest) (i + 1)]
    simp [legsOf, legDist, List.append_assoc]

theorem veryLongMsg_ne_navJumpMsg (k : ℕ) (d : ℚ) :
    veryLongMsg k d ≠ navJumpMsg k := by
  intro h
  have hlen := congrArg String.length h
  simp only [veryLongMsg, navJumpMsg, String.length_append] at hlen
  have e1 : ("Segment " : String).length = 8 := rfl
  have e2 : (" is very long (" : String).length = 15 := rfl
  have e3 : (" NM). Check waypoint spacing." : String).length = 29 := rfl
  have e4 : (" may indicate a navigation jump." : String).length = 32 := rfl
  rw [e1, e2, e3, e4] at hlen
  omega

theorem legWarnings_mem (i : ℕ) (d m : ℚ) :
    (veryLongMsg (i + 1) d ∈ legWarnings i d m ↔ m < d) ∧
    (navJumpMsg (i + 1) ∈ legWarnings i d m ↔ m * 2 < d) := by
  unfold legWarnings
  have hne := veryLongMsg_ne_navJumpMsg (i + 1) d
  by_cases h1 : m < d <;> by_cases h2 : m * 2 < d <;>
    simp [h1, h2, hne, hne.symm]

/-- C5: `compute_route_warnings` emits, leg by leg and in order, a
"very long" warning exactly when the leg's distance exceeds
`max_segment_nm` and a "navigation jump" warning exactly when it exceeds
`2 * max_segment_nm` (both may co-fire); concretely, with threshold 50 a
60 NM leg warns "very long", a 120 NM leg additionally "navigation jump",
and a 40 NM leg produces no warning. -/
theorem computeRouteWarnings_thresholds :
    (∀ (points : List (ℚ × ℚ)) (hav : ℚ → ℚ → ℚ → ℚ → ℚ) (m : ℚ),
      compute_route_warnings points hav m =
        ((List.enumFrom 0 (legsOf points)).map
          (fun p => legWarnings p.1 (legDist hav p.2) m)).flatten) ∧
    (∀ (i : ℕ) (d m : ℚ),
      (veryLongMsg (i + 1) d ∈ legWarnings i d m ↔ m < d) ∧
      (navJumpMsg (i + 1) ∈ legWarnings i d m ↔ m * 2 < d)) ∧
    compute_route_warnings [(0, 0), (1, 1)] (fun _ _ _ _ => 60) 50 =
      [veryLongMsg 1 60] ∧
    strContains (veryLongMsg 1 60) "very long" = true ∧
    compute_route_warnings [(0, 0), (1, 1)] (fun _ _ _ _ => 120) 50 =
      [veryLongMsg 1 120, navJumpMsg 1] ∧
    strContains (veryLongMsg 1 120) "very long" = true ∧
    strContains (navJumpMsg 1) "navigation jump" = true ∧
    compute_route_warnings [(0, 0), (1, 1)] (fun _ _ _ _ => 40) 50 = [] := by
  refine ⟨?_, legWarnings_mem, ?_, ?_, ?_, ?_, ?_, ?_⟩
  · intro points hav m
    match points with
    | [] => simp [compute_route_warnings, legsOf]
    | [p] => simp [compute_route_warnings, legsOf]
    | p1 :: p2 :: rest =>
      have hlen : ¬((p1 :: p2 :: rest).length < 2) := by simp
      rw [compute_route_warnings, if_neg hlen, warnLoop_eq]
      simp
  · with_unfolding_all decide
  · with_unfolding_all decide
  · with_unfolding_all decide
  · with_unfolding_all decide
  · with_unfolding_all decide
  · with_unfolding_all decide

/-- The displayed segment built for one leg by `compute_route_calculation`:
distance rounded to 2 decimals, bearing to 1, eta hours to 2, plus `HH:MM`. -/
def segOf (speed_kn : ℚ) (hav brg : ℚ → ℚ → ℚ → ℚ → ℚ) (hhmm : ℚ → String)
    (leg : (ℚ × ℚ) × (ℚ × ℚ)) : SegOut :=
  ⟨leg.1.1, leg.1.2, leg.2.1, leg.2.2,
    roundTo 2 (legDist hav leg),
    roundTo 1 (brg leg.1.1 leg.1.2 leg.2.1 leg.2.2),
    roundTo 2 (legDist hav leg / speed_kn),
    hhmm (legDist hav leg / speed_kn)⟩

theorem calcLoop_eq (speed_kn : ℚ) (hav brg : ℚ → ℚ → ℚ → ℚ → ℚ)
    (hhmm : ℚ → String) :
    ∀ (points : List (ℚ × ℚ)) (segs : List SegOut) (tn th : ℚ),
      calcLoop speed_kn hav brg hhmm points segs tn th =
        (segs ++ (legsOf points).map (segOf speed_kn hav brg hhmm),
         tn + ((legsOf points).map (legDist hav)).sum,
         th + ((legsOf points).map
           (fun l => legDist hav l / speed_kn)).sum)
  | [], segs, tn, th => by simp [calcLoop, legsOf]
  | [p], segs, tn, th => by simp [calcLoop, legsOf]
  | p1 :: p2 :: rest, segs, tn, th => by
    rw [calcLoop, calcLoop_eq speed_kn hav brg hhmm (p2 :: rest)]
    simp [legsOf, legDist, segOf, List.append_assoc, add_assoc]

theorem list_sum_div {α : Type} (l : List α) (f : α → ℚ) (s : ℚ) :
    (l.map (fun x => f x / s)).sum = (l.map f).sum / s := by
  induction l with
  | nil => simp
  | cons x xs ih => simp [ih, add_div]

/-- C4: `compute_route_calculation` accumulates unrounded per-leg distances
and hours and rounds the totals only once at the end, while each displayed
segment carries distance rounded to 2 decimals, bearing to 1 and eta hours
to 2; for the route `[(45,29),(44,28)]` at 10 kn (any haversine/bearing
callables, as in the source), `total_nm` is the unrounded leg distance
rounded to 2 decimals and `total_eta_hhmm` is `hours_to_hhmm` of the
unrounded distance divided by 10. -/
theorem computeRouteCalculation_rounds_once :
    (∀ (points : List (ℚ × ℚ)) (speed_kn : ℚ)
        (hav brg : ℚ → ℚ → ℚ → ℚ → ℚ) (hhmm : ℚ → String),
      0 < speed_kn → 2 ≤ points.length →
      compute_route_calculation points speed_kn hav brg hhmm =
        .ok ⟨speed_kn,
          roundTo 2 (((legsOf points).map (legDist hav)).sum),
          roundTo 2 (((legsOf points).map (legDist hav)).sum / speed_kn),
          hhmm (((legsOf points).map (legDist hav)).sum / speed_kn),
          (legsOf points).map (segOf speed_kn hav brg hhmm)⟩) ∧
    (∀ hav brg : ℚ → ℚ → ℚ → ℚ → ℚ,
      compute_route_calculation [(45, 29), (44, 28)] 10 hav brg
          (fun h => hours_to_hhmm (some h)) =
        .ok ⟨10, roundTo 2 (hav 45 29 44 28),
          roundTo 2 (hav 45 29 44 28 / 10),
          hours_to_hhmm (some (hav 45 29 44 28 / 10)),
          [⟨45, 29, 44, 28, roundTo 2 (hav 45 29 44 28),
            roundTo 1 (brg 45 29 44 28),
            roundTo 2 (hav 45 29 44 28 / 10),
            hours_to_hhmm (some (hav 45 29 44 28 / 10))⟩]⟩) := by
  have hgen : ∀ (points : List (ℚ × ℚ)) (speed_kn : ℚ)
      (hav brg : ℚ → ℚ → ℚ → ℚ → ℚ) (hhmm : ℚ → String),
      0 < speed_kn → 2 ≤ points.length →
      compute_route_calculation points speed_kn hav brg hhmm =
        .ok ⟨speed_kn,
          roundTo 2 (((legsOf points).map (legDist hav)).sum),
          roundTo 2 (((legsOf points).map (legDist hav)).sum / speed_kn),
          hhmm (((legsOf points).map (legDist hav)).sum / speed_kn),
          (legsOf points).map (segOf speed_kn hav brg hhmm)⟩ := by
    intro points speed_kn hav brg hhmm hs hl
    unfold compute_route_calculation
    rw [if_neg (by exact not_le.mpr hs), if_neg (by omega), calcLoop_eq]
    simp [list_sum_div]
  refine ⟨hgen, ?_⟩
  intro hav brg
  have h := hgen [(45, 29), (44, 28)] 10 hav brg
    (fun h => hours_to_hhmm (some h)) (by norm_num) (by decide)
  rw [h]
  simp [legsOf, segOf, legDist]

/-- Witness for C4: the one-leg route at 10 kn with a mock 60 NM haversine
evaluates to a 60 NM total, 6.00 h, "06:00". -/
theorem computeRouteCalculation_rounds_once_witness :
    compute_route_calculation [(45, 29), (44, 28)] 10 (fun _ _ _ _ => 60)
        (fun _ _ _ _ => 200) (fun h => hours_to_hhmm (some h)) =
      .ok ⟨10, 60, 6, "06:00", [⟨45, 29, 44, 28, 60, 200, 6, "06:00"⟩]⟩ := by
  have h := computeRouteCalculation_rounds_once.1 [(45, 29), (44, 28)] 10
    (fun _ _ _ _ => 60) (fun _ _ _ _ => 200) (fun h => hours_to_hhmm (some h))
    (by norm_num) (by decide)
  exact h.trans (by with_unfolding_all decide)

/-! ## Facts about `parse_single_coord` -/

/-- The valid range of the given axis (`lat`: [-90,90]; `lon`: [-180,180]). -/
def axisInRange : Axis → ℚ → Prop
  | .lat, v => -90 ≤ v ∧ v ≤ 90
  | .lon, v => -180 ≤ v ∧ v ≤ 180

instance (a : Axis) (v : ℚ) : Decidable (axisInRange a v) := by
  cases a <;> unfold axisInRange <;> infer_instance

theorem validate_coord_range_spec (v : ℚ) (a : Axis) :
    validate_coord_range v a =
      (if axisInRange a v then .ok () else .error (.range v)) := by
  cases a with
  | lat =>
    show (if ¬((-90 : ℚ) ≤ v ∧ v ≤ 90) then _ else _) = _
    simp only [axisInRange]
    by_cases h : (-90 : ℚ) ≤ v ∧ v ≤ 90
    · rw [if_neg (not_not_intro h), if_pos h]
    · rw [if_pos h, if_neg h]
  | lon =>
    show (if ¬((-180 : ℚ) ≤ v ∧ v ≤ 180) then _ else _) = _
    simp only [axisInRange]
    by_cases h : (-180 : ℚ) ≤ v ∧ v ≤ 180
    · rw [if_neg (not_not_intro h), if_pos h]
    · rw [if_pos h, if_neg h]

/-- `parse_single_coord` as a single match: the pre-validation value,
range-checked. -/
theorem parse_single_coord_eq (token : String) (axis : Axis) :
    parse_single_coord token axis =
      (match parse_coord_value (cleanUpper token) with
       | .error e => .error e
       | .ok val =>
         if axisInRange axis val then .ok val else .error (.range val)) := by
  unfold parse_single_coord
  cases hpv : parse_coord_value (cleanUpper token) with
  | error e => rfl
  | ok w =>
    dsimp only
    rw [validate_coord_range_spec]
    by_cases hr : axisInRange axis w
    · rw [if_pos hr, if_pos hr]
    · rw [if_neg hr, if_neg hr]

theorem pyAbs_eq_abs (q : ℚ) : pyAbs q = |q| := by
  unfold pyAbs
  split
  · exact (abs_of_neg (by assumption)).symm
  · exact (abs_of_nonneg (not_lt.mp (by assumption))).symm

theorem parse_dms_parts_error_format {t : List Char} {e : CoordError}
    (h : parse_dms_parts t = .error e) : ∃ m, e = .format m := by
  simp only [parse_dms_parts] at h
  repeat' split at h
  all_goals first
    | (injection h with h2; exact ⟨_, h2.symm⟩)
    | simp at h

theorem parse_dms_parts_ok_hemi {t : List Char} {d m s : ℚ} {hemi : List Char}
    (h : parse_dms_parts t = .ok (d, m, s, hemi)) :
    hemi = ['N'] ∨ hemi = ['S'] ∨ hemi = ['E'] ∨ hemi = ['W'] := by
  simp only [parse_dms_parts] at h
  repeat' split at h
  all_goals try (exact Except.noConfusion h)
  all_goals
    injection h with h2
    injection h2 with e1 h3
    injection h3 with e2 h4
    injection h4 with e3 e4
    subst e4
    exact not_not.mp (by assumption)

theorem parse_coord_value_error_format {t : List Char} {e : CoordError}
    (h : parse_coord_value t = .error e) : ∃ m, e = .format m := by
  simp only [parse_coord_value] at h
  split at h
  · split at h
    · simp at h
    · injection h with h2; exact ⟨_, h2.symm⟩
  · split at h
    · rename_i e' heq
      injection h with h2
      subst h2
      exact parse_dms_parts_error_format heq
    · simp at h

/-- `"44 10.2 N"` parses as latitude 44.17 (= 44 + 10.2/60). -/
theorem parse_dm_example_lat :
    parse_single_coord "44 10.2 N" Axis.lat = .ok (4417/100) := by
  rw [parse_single_coord_eq]
  rw [show cleanUpper "44 10.2 N" = ['4','4',' ','1','0','.','2',' ','N'] from by
    with_unfolding_all decide]
  unfold parse_coord_value
  rw [show isSignedDecLit ['4','4',' ','1','0','.','2',' ','N'] = false from by decide]
  simp only [Bool.false_eq_true, if_false]
  rw [show parse_dms_parts ['4','4',' ','1','0','.','2',' ','N'] =
      .ok (44, 51/5, 0, ['N']) from by with_unfolding_all decide]
  dsimp only
  have hv : dms_to_decimal 44 (51/5) 0 ['N'] = 4417/100 := by
    norm_num [dms_to_decimal, pyAbs]
    decide
  rw [hv, if_pos (by norm_num [axisInRange])]

/-- `"28 39.0 E"` parses as longitude 28.65 (= 28 + 39/60). -/
theorem parse_dm_example_lon :
    parse_single_coord "28 39.0 E" Axis.lon = .ok (573/20) := by
  rw [parse_single_coord_eq]
  rw [show cleanUpper "28 39.0 E" = ['2','8',' ','3','9','.','0',' ','E'] from by
    with_unfolding_all decide]
  unfold parse_coord_value
  rw [show isSignedDecLit ['2','8',' ','3','9','.','0',' ','E'] = false from by decide]
  simp only [Bool.false_eq_true, if_false]
  rw [show parse_dms_parts ['2','8',' ','3','9','.','0',' ','E'] =
      .ok (28, 39, 0, ['E']) from by with_unfolding_all decide]
  dsimp only
  have hv : dms_to_decimal 28 39 0 ['E'] = 573/20 := by
    norm_num [dms_to_decimal, pyAbs]
    decide
  rw [hv, if_pos (by norm_num [axisInRange])]

/-- C6: `parse_single_coord` yields a range error carrying the offending
value exactly when the value it parsed lies outside the axis range
([-90,90] for lat, [-180,180] for lon); an accepted token's value is always
in range; `"91"` on lat and `"181"` on lon are range errors. -/
theorem parseSingleCoord_range_error :
    (∀ (token : String) (axis : Axis) (v : ℚ),
      parse_single_coord token axis = .error (.range v) ↔
        (parse_coord_value (cleanUpper token) = .ok v ∧ ¬ axisInRange axis v)) ∧
    (∀ (token : String) (axis : Axis) (v : ℚ),
      parse_single_coord token axis = .ok v → axisInRange axis v) ∧
    parse_single_coord "91" Axis.lat = .error (.range 91) ∧
    parse_single_coord "181" Axis.lon = .error (.range 181) := by
  refine ⟨?_, ?_, ?_, ?_⟩
  · intro token axis v
    rw [parse_single_coord_eq]
    cases hpv : parse_coord_value (cleanUpper token) with
    | error e =>
      obtain ⟨m, rfl⟩ := parse_coord_value_error_format hpv
      simp
    | ok w =>
      dsimp only
      by_cases hr : axisInRange axis w
      · rw [if_pos hr]
        constructor
        · intro h; exact absurd h (by simp)
        · rintro ⟨hok, hnr⟩
          injection hok with h3
          exact absurd (h3 ▸ hr) hnr
      · rw [if_neg hr]
        constructor
        · intro h
          injection h with h2
          injection h2 with h3
          exact ⟨h3 ▸ rfl, h3 ▸ hr⟩
        · rintro ⟨hok, hnr⟩
          injection hok with h3
          rw [h3]
  · intro token axis v
    rw [parse_single_coord_eq]
    cases hpv : parse_coord_value (cleanUpper token) with
    | error e => intro h; exact absurd h (by simp)
    | ok w =>
      dsimp only
      by_cases hr : axisInRange axis w
      · rw [if_pos hr]
        intro h
        injection h with h3
        exact h3 ▸ hr
      · rw [if_neg hr]
        intro h
        exact absurd h (by simp)
  · set_option maxRecDepth 2048 in with_unfolding_all decide
  · set_option maxRecDepth 2048 in with_unfolding_all decide

/-- Witness for C6: the accepted DM token `"44 10.2 N"` parses to a value in
the latitude range. -/
theorem parseSingleCoord_range_error_witness :
    axisInRange Axis.lat (4417/100) :=
  parseSingleCoord_range_error.2.1 "44 10.2 N" Axis.lat (4417/100)
    parse_dm_example_lat

/-- C3: a token accepted through the DM/DMS branch of `parse_single_coord`
evaluates to `|deg| + minutes/60 + seconds/3600`, negated exactly for
hemisphere `S` or `W`; `"44 10.2 N"` parses (on lat) to within 1e-3 of 44.17
and `"28 39.0 E"` (on lon) to within 1e-3 of 28.65. -/
theorem parseSingleCoord_dms_value :
    (∀ (token : String) (axis : Axis) (v : ℚ),
      isSignedDecLit (cleanUpper token) = false →
      parse_single_coord token axis = .ok v →
      ∃ (d m s : ℚ) (hemi : List Char),
        parse_dms_parts (cleanUpper token) = .ok (d, m, s, hemi) ∧
        v = dms_to_decimal d m s hemi ∧
        dms_to_decimal d m s hemi =
          (if hemi = ['S'] ∨ hemi = ['W'] then -(|d| + m / 60 + s / 3600)
           else |d| + m / 60 + s / 3600)) ∧
    (∃ v : ℚ, parse_single_coord "44 10.2 N" Axis.lat = .ok v ∧
      |v - 44.17| < 1/1000) ∧
    (∃ v : ℚ, parse_single_coord "28 39.0 E" Axis.lon = .ok v ∧
      |v - 28.65| < 1/1000) := by
  refine ⟨?_, ?_, ?_⟩
  · intro token axis v hlit hok
    rw [parse_single_coord_eq] at hok
    cases hpv : parse_coord_value (cleanUpper token) with
    | error e => rw [hpv] at hok; exact absurd hok (by simp)
    | ok w =>
      rw [hpv] at hok
      dsimp only at hok
      have hw : w = v := by
        by_cases hr : axisInRange axis w
        · rw [if_pos hr] at hok; injection hok
        · rw [if_neg hr] at hok; exact absurd hok (by simp)
      subst hw
      unfold parse_coord_value at hpv
      rw [hlit] at hpv
      simp only [Bool.false_eq_true, if_false] at hpv
      cases hdms : parse_dms_parts (cleanUpper token) with
      | error e => rw [hdms] at hpv; exact absurd hpv (by simp)
      | ok q =>
        obtain ⟨d, m, s, hemi⟩ := q
        rw [hdms] at hpv
        dsimp only at hpv
        injection hpv with h2
        refine ⟨d, m, s, hemi, rfl, h2.symm, ?_⟩
        rcases parse_dms_parts_ok_hemi hdms with rfl | rfl | rfl | rfl <;>
          simp [dms_to_decimal, pyAbs_eq_abs]
  · exact ⟨4417/100, parse_dm_example_lat, by norm_num⟩
  · exact ⟨573/20, parse_dm_example_lon, by norm_num⟩

/-- Witness for C3: the DM token `"44 10.2 N"` decomposes as degrees 44,
minutes 10.2, hemisphere N, with the DM/DMS value law. -/
theorem parseSingleCoord_dms_value_witness :
    ∃ (d m s : ℚ) (hemi : List Char),
      parse_dms_parts (cleanUpper "44 10.2 N") = .ok (d, m, s, hemi) ∧
      (4417/100 : ℚ) = dms_to_decimal d m s hemi ∧
      dms_to_decimal d m s hemi =
        (if hemi = ['S'] ∨ hemi = ['W'] then -(|d| + m / 60 + s / 3600)
         else |d| + m / 60 + s / 3600) :=
  parseSingleCoord_dms_value.1 "44 10.2 N" Axis.lat (4417/100)
    (by with_unfolding_all decide) parse_dm_example_lat

/-- Counterexample for C1: the DM/DMS line `"44 10.2 N, 28 39.0 E"` is not
resolved as a coordinate waypoint in mixed mode — both of its halves are
accepted by `parse_single_coord`, yet `build_route_from_text` (and likewise
`parse_waypoints_mixed`) hands the whole line to the location resolver and
fails, with no strict-pair parse attempted in between. -/
theorem mixedMode_no_strict_pair_counterexample :
    (build_route_from_text "44 10.2 N, 28 39.0 E" noResolver).waypoints = [] ∧
    (build_route_from_text "44 10.2 N, 28 39.0 E" noResolver).errors =
      ["[Line 1] Unknown location or invalid coordinates: '44 10.2 N, 28 39.0 E'"] ∧
    parse_single_coord "44 10.2 N" Axis.lat = .ok (4417/100) ∧
    parse_single_coord "28 39.0 E" Axis.lon = .ok (573/20) ∧
    parse_waypoints_mixed "44 10.2 N, 28 39.0 E\n45, 29" (fun _ => none) =
      .error
        "Location not found: 44 10.2 N, 28 39.0 E. Use coordinates or ask admin to add it." :=
  ⟨by with_unfolding_all decide, by with_unfolding_all decide,
    parse_dm_example_lat, parse_dm_example_lon, by with_unfolding_all decide⟩

/-- C1 (amended): in mixed mode, an input line that does not parse as a plain
decimal pair is treated directly as a location name — no CoordinateParser
strict-pair parse is attempted — `resolver.resolve(name)` is called, and when
it fails the error message includes the `resolver.suggest(name, limit=3)`
suggestions exactly when they are non-empty. -/
theorem mixedMode_line_fallback (resolver : LocationResolver) (idx : ℕ)
    (raw : String) (hstrip : pyStripStr raw = raw) (hne : raw ≠ "")
    (hcoord : parse_lat_lon raw = none) (hres : resolver.resolve raw = none) :
    (resolver.suggest raw 3 = [] →
      process_line resolver idx raw = ([],
        ["[Line " ++ toString idx ++
          "] Unknown location or invalid coordinates: '" ++ raw ++ "'"])) ∧
    (resolver.suggest raw 3 ≠ [] →
      process_line resolver idx raw = ([],
        ["[Line " ++ toString idx ++ "] Unknown location: '" ++ raw ++
          "'. Did you mean: " ++
          String.intercalate ", " (resolver.suggest raw 3) ++ "?"])) := by
  constructor <;> intro hs <;>
    · unfold process_line
      rw [hstrip, if_neg hne, hcoord]
      dsimp only
      rw [hres]
      dsimp only
      first
        | rw [if_neg (not_not_intro hs)]
        | rw [if_pos hs]

/-- Witness for C1 (amended): the DM/DMS line goes straight to the resolver;
with two suggestions available the error carries them. -/
theorem mixedMode_line_fallback_witness :
    process_line sugResolver 1 "44 10.2 N, 28 39.0 E" = ([],
      ["[Line 1] Unknown location: '44 10.2 N, 28 39.0 E'. Did you mean: Constanta, Corfu?"]) := by
  have h := (mixedMode_line_fallback sugResolver 1 "44 10.2 N, 28 39.0 E"
    (by with_unfolding_all decide) (by decide)
    (by with_unfolding_all decide) rfl).2 (by decide)
  exact h.trans (by with_unfolding_all decide)

/-! ## C10: lines matching `<decimal> <sep> <decimal>` -/

/-- A decimal literal as matched by `-?\d+(\.\d+)?`: optional sign, integer
digits `ip`, and fractional digits `fp` (`fp = []` meaning no fraction). -/
def renderDec (neg : Bool) (ip fp : List Char) : List Char :=
  (if neg then ['-'] else []) ++ ip ++ (if fp = [] then [] else '.' :: fp)

/-- The numeric value of such a literal, as `parse_lat_lon` computes it. -/
def renderedVal (neg : Bool) (ip fp : List Char) : ℚ :=
  if neg then -(if fp = [] then (natOfDigits ip : ℚ) else decValue ip fp)
  else (if fp = [] then (natOfDigits ip : ℚ) else decValue ip fp)

theorem dropWhile_eq_nil_of_all {p : Char → Bool} :
    ∀ {l : List Char}, (∀ c ∈ l, p c = true) → l.dropWhile p = []
  | [], _ => rfl
  | c :: cs, h => by
    rw [List.dropWhile_cons_of_pos (h c (by simp))]
    exact dropWhile_eq_nil_of_all (fun x hx => h x (by simp [hx]))

theorem headFails_renderDec_append {p : Char → Bool} {neg : Bool}
    {ip fp rest : List Char} (hip : ip ≠ [])
    (hipd : ∀ c ∈ ip, c.isDigit = true) (hdash : p '-' = false)
    (hdig : ∀ c, c.isDigit = true → p c = false) :
    headFails p (renderDec neg ip fp ++ rest) := by
  unfold renderDec
  cases neg with
  | true =>
    simp only [if_pos rfl, List.cons_append, List.nil_append]
    exact headFails_cons hdash
  | false =>
    rcases ip with _ | ⟨i0, ip'⟩
    · exact absurd rfl hip
    · simp only [Bool.false_eq_true, if_false, List.nil_append, List.cons_append]
      exact headFails_cons (hdig i0 (hipd i0 (by simp)))

theorem renderDec_ne_nil {neg : Bool} {ip fp : List Char} (hip : ip ≠ []) :
    renderDec neg ip fp ≠ [] := by
  unfold renderDec
  rcases ip with _ | ⟨i0, ip'⟩
  · exact absurd rfl hip
  · cases neg <;> simp

theorem renderDec_reverse_headFails {neg : Bool} {ip fp : List Char}
    (hip : ip ≠ []) (hipd : ∀ c ∈ ip, c.isDigit = true)
    (hfpd : ∀ c ∈ fp, c.isDigit = true) :
    headFails isPySpace (renderDec neg ip fp).reverse := by
  unfold renderDec
  rcases fp with _ | ⟨f0, fs⟩
  · rcases List.eq_nil_or_concat ip with rfl | ⟨L, b, rfl⟩
    · exact absurd rfl hip
    · have hb : b.isDigit = true := hipd b (by simp [List.concat_eq_append])
      simp only [if_pos rfl, List.append_nil, List.concat_eq_append,
        List.reverse_append, List.reverse_cons, List.reverse_nil,
        List.nil_append, List.cons_append, List.append_assoc]
      exact headFails_cons (isDigit_not_pySpace hb)
  · rcases List.eq_nil_or_concat (f0 :: fs) with heq | ⟨L, b, heq⟩
    · exact absurd heq (by simp)
    · have hb : b.isDigit = true := by
        refine hfpd b ?_
        rw [heq, List.concat_eq_append]
        simp
      rw [show (if (f0 :: fs : List Char) = [] then [] else '.' :: (f0 :: fs)) =
        '.' :: (f0 :: fs) from rfl, heq]
      simp only [List.concat_eq_append, List.reverse_append, List.reverse_cons,
        List.reverse_nil, List.nil_append, List.cons_append, List.append_assoc]
      exact headFails_cons (isDigit_not_pySpace hb)

theorem parseDecUnsignedTok_render {ip fp rest : List Char} (hip : ip ≠ [])
    (hipd : ∀ c ∈ ip, c.isDigit = true) (hfpd : ∀ c ∈ fp, c.isDigit = true)
    (hrest : headFails (fun c => c.isDigit || c = '.') rest) :
    parseDecUnsignedTok (ip ++ (if fp = [] then [] else '.' :: fp) ++ rest) =
      some ((if fp = [] then (natOfDigits ip : ℚ) else decValue ip fp), rest) := by
  have hrestDigit : headFails Char.isDigit rest := by
    intro c cs hc
    have h := hrest c cs hc
    simp only [Bool.or_eq_false_iff] at h
    exact h.1
  rcases fp with _ | ⟨f0, fs⟩
  · show parseDecUnsignedTok (ip ++ [] ++ rest) = some ((natOfDigits ip : ℚ), rest)
    rw [List.append_nil]
    unfold parseDecUnsignedTok
    rw [span_append hipd hrestDigit]
    dsimp only
    rw [if_neg hip]
    cases hr : rest with
    | nil => rfl
    | cons c cs =>
      have h := hrest c cs hr
      simp only [Bool.or_eq_false_iff, decide_eq_false_iff_not] at h
      split
      · rename_i r2 heq
        injection heq with hc hcs
        exact absurd hc h.2
      · rfl
  · show parseDecUnsignedTok (ip ++ ('.' :: (f0 :: fs)) ++ rest) =
      some (decValue ip (f0 :: fs), rest)
    have hshape : ip ++ ('.' :: (f0 :: fs)) ++ rest =
        ip ++ ('.' :: ((f0 :: fs) ++ rest)) := by
      simp [List.append_assoc]
    rw [hshape]
    unfold parseDecUnsignedTok
    rw [span_append hipd (headFails_cons (by decide))]
    dsimp only
    rw [if_neg hip]
    show (if (List.span Char.isDigit ((f0 :: fs) ++ rest)).1 = [] then _ else _) =
      (_ : Option (ℚ × List Char))
    rw [span_append hfpd hrestDigit]
    dsimp only
    rw [if_neg (by simp)]

theorem parseDecTok_render {neg : Bool} {ip fp rest : List Char} (hip : ip ≠ [])
    (hipd : ∀ c ∈ ip, c.isDigit = true) (hfpd : ∀ c ∈ fp, c.isDigit = true)
    (hrest : headFails (fun c => c.isDigit || c = '.') rest) :
    parseDecTok (renderDec neg ip fp ++ rest) =
      some (renderedVal neg ip fp, rest) := by
  cases neg with
  | true =>
    have hshape : renderDec true ip fp ++ rest =
        '-' :: (ip ++ (if fp = [] then [] else '.' :: fp) ++ rest) := by
      simp [renderDec, List.append_assoc]
    rw [hshape]
    show (parseDecUnsignedTok _).map _ = _
    rw [parseDecUnsignedTok_render hip hipd hfpd hrest]
    simp [renderedVal]
  | false =>
    rcases ip with _ | ⟨i0, ip'⟩
    · exact absurd rfl hip
    have hi0 : i0.isDigit = true := hipd i0 (by simp)
    have hshape : renderDec false (i0 :: ip') fp ++ rest =
        i0 :: (ip' ++ (if fp = [] then [] else '.' :: fp) ++ rest) := by
      simp [renderDec, List.append_assoc]
    rw [hshape]
    unfold parseDecTok
    split
    · rename_i r heq
      injection heq with h1 h2
      rw [h1] at hi0
      exact absurd hi0 (by decide)
    · have hback : i0 :: (ip' ++ (if fp = [] then [] else '.' :: fp) ++ rest) =
          (i0 :: ip') ++ (if fp = [] then [] else '.' :: fp) ++ rest := by
        simp [List.append_assoc]
      rw [hback, parseDecUnsignedTok_render hip hipd hfpd hrest]
      simp [renderedVal]

theorem headFails_append {p : Char → Bool} {l₁ l₂ : List Char}
    (h : headFails p l₁) (hne : l₁ ≠ []) : headFails p (l₁ ++ l₂) := by
  cases l₁ with
  | nil => exact absurd rfl hne
  | cons a as =>
    intro c cs hc
    rw [List.cons_append] at hc
    injection hc with h1 _
    exact h1 ▸ h a as rfl

theorem parse_lat_lon_core_render
    {neg1 neg2 : Bool} {ip1 fp1 ip2 fp2 sep ws0 ws3 : List Char}
    (hip1 : ip1 ≠ []) (hipd1 : ∀ c ∈ ip1, c.isDigit = true)
    (hfpd1 : ∀ c ∈ fp1, c.isDigit = true)
    (hip2 : ip2 ≠ []) (hipd2 : ∀ c ∈ ip2, c.isDigit = true)
    (hfpd2 : ∀ c ∈ fp2, c.isDigit = true)
    (hsep : sep = [' '] ∨ sep = [';'])
    (hws0 : ∀ c ∈ ws0, isPySpace c = true)
    (hws3 : ∀ c ∈ ws3, isPySpace c = true) :
    parse_lat_lon_core
      (ws0 ++ renderDec neg1 ip1 fp1 ++ sep ++ renderDec neg2 ip2 fp2 ++ ws3) =
      some (renderedVal neg1 ip1 fp1, renderedVal neg2 ip2 fp2) := by
  have hws3' : headFails (fun c => c.isDigit || c = '.') ws3 := by
    intro c cs hc
    have h := hws3 c (by rw [hc]; simp)
    simp only [Bool.or_eq_false_iff, decide_eq_false_iff_not]
    exact ⟨isPySpace_isDigit_false h, isPySpace_ne_dot h⟩
  have hrest1 : headFails (fun c => c.isDigit || c = '.')
      (sep ++ (renderDec neg2 ip2 fp2 ++ ws3)) := by
    rcases hsep with rfl | rfl <;> exact headFails_cons (by decide)
  have hsepcls : ∀ c ∈ sep, isSepClass c = true := by
    rcases hsep with rfl | rfl <;> intro c hc <;> simp at hc <;>
      subst hc <;> decide
  have hR2cls : headFails isSepClass (renderDec neg2 ip2 fp2 ++ ws3) :=
    headFails_renderDec_append hip2 hipd2 (by decide)
      (fun c h => isDigit_not_sepClass h)
  have hR1ws : headFails isPySpace (renderDec neg1 ip1 fp1 ++
      (sep ++ (renderDec neg2 ip2 fp2 ++ ws3))) :=
    headFails_renderDec_append hip1 hipd1 (by decide)
      (fun c h => isDigit_not_pySpace h)
  unfold parse_lat_lon_core
  rw [show ws0 ++ renderDec neg1 ip1 fp1 ++ sep ++ renderDec neg2 ip2 fp2 ++ ws3 =
      ws0 ++ (renderDec neg1 ip1 fp1 ++ (sep ++ (renderDec neg2 ip2 fp2 ++ ws3)))
    from by simp [List.append_assoc]]
  rw [List.dropWhile_append_of_pos hws0,
    dropWhile_eq_self_of_headFails hR1ws,
    parseDecTok_render hip1 hipd1 hfpd1 hrest1]
  dsimp only
  rw [span_append hsepcls hR2cls]
  dsimp only
  rcases hsep with rfl | rfl <;>
  · rw [if_neg (by simp), if_neg (by decide),
      parseDecTok_render hip2 hipd2 hfpd2 hws3']
    dsimp only
    rw [dropWhile_eq_nil_of_all hws3]
    rfl

theorem process_line_coord_render
    {neg1 neg2 : Bool} {ip1 fp1 ip2 fp2 sep : List Char}
    (hip1 : ip1 ≠ []) (hipd1 : ∀ c ∈ ip1, c.isDigit = true)
    (hfpd1 : ∀ c ∈ fp1, c.isDigit = true)
    (hip2 : ip2 ≠ []) (hipd2 : ∀ c ∈ ip2, c.isDigit = true)
    (hfpd2 : ∀ c ∈ fp2, c.isDigit = true)
    (hsep : sep = [' '] ∨ sep = [';'])
    (resolver : LocationResolver) (idx : ℕ)
    (hval : validate_lat_lon (renderedVal neg1 ip1 fp1)
      (renderedVal neg2 ip2 fp2) = []) :
    process_line resolver idx
      ⟨renderDec neg1 ip1 fp1 ++ sep ++ renderDec neg2 ip2 fp2⟩ =
      ([⟨"WP" ++ toString idx, renderedVal neg1 ip1 fp1,
        renderedVal neg2 ip2 fp2⟩], []) := by
  have hstrip : pyStrip (renderDec neg1 ip1 fp1 ++ sep ++
      renderDec neg2 ip2 fp2) = renderDec neg1 ip1 fp1 ++ sep ++
      renderDec neg2 ip2 fp2 := by
    unfold pyStrip
    have h1 : (renderDec neg1 ip1 fp1 ++ sep ++
        renderDec neg2 ip2 fp2).dropWhile isPySpace =
        renderDec neg1 ip1 fp1 ++ sep ++ renderDec neg2 ip2 fp2 := by
      rw [show renderDec neg1 ip1 fp1 ++ sep ++ renderDec neg2 ip2 fp2 =
          renderDec neg1 ip1 fp1 ++ (sep ++ renderDec neg2 ip2 fp2) from by
        simp [List.append_assoc]]
      exact dropWhile_eq_self_of_headFails
        (headFails_renderDec_append hip1 hipd1 (by decide)
          (fun c h => isDigit_not_pySpace h))
    have h2 : (renderDec neg1 ip1 fp1 ++ sep ++
        renderDec neg2 ip2 fp2).reverse.dropWhile isPySpace =
        (renderDec neg1 ip1 fp1 ++ sep ++ renderDec neg2 ip2 fp2).reverse := by
      apply dropWhile_eq_self_of_headFails
      rw [List.reverse_append]
      exact headFails_append (renderDec_reverse_headFails hip2 hipd2 hfpd2)
        (by simp [renderDec_ne_nil hip2])
    rw [h1, h2, List.reverse_reverse]
  have hne : ¬((⟨renderDec neg1 ip1 fp1 ++ sep ++ renderDec neg2 ip2 fp2⟩ :
      String) = "") := by
    intro h
    have hd := congrArg String.data h
    simp only [List.append_eq_nil] at hd
    exact renderDec_ne_nil hip1 hd.1.1
  have hcore : parse_lat_lon_core (renderDec neg1 ip1 fp1 ++ sep ++
      renderDec neg2 ip2 fp2) =
      some (renderedVal neg1 ip1 fp1, renderedVal neg2 ip2 fp2) := by
    have h := @parse_lat_lon_core_render neg1 neg2 ip1 fp1 ip2 fp2 sep [] []
      hip1 hipd1 hfpd1 hip2 hipd2 hfpd2 hsep (by simp) (by simp)
    simpa using h
  unfold process_line
  rw [show pyStripStr ⟨renderDec neg1 ip1 fp1 ++ sep ++
      renderDec neg2 ip2 fp2⟩ = ⟨renderDec neg1 ip1 fp1 ++ sep ++
      renderDec neg2 ip2 fp2⟩ from by unfold pyStripStr; rw [show
      (⟨renderDec neg1 ip1 fp1 ++ sep ++ renderDec neg2 ip2 fp2⟩ :
        String).data = renderDec neg1 ip1 fp1 ++ sep ++
        renderDec neg2 ip2 fp2 from rfl, hstrip]]
  rw [if_neg hne]
  rw [show parse_lat_lon ⟨renderDec neg1 ip1 fp1 ++ sep ++
      renderDec neg2 ip2 fp2⟩ =
      some (renderedVal neg1 ip1 fp1, renderedVal neg2 ip2 fp2) from hcore]
  dsimp only
  rw [hval]
  rw [if_neg (by simp)]

/-- C10: the coordinate fast path accepts a decimal pair separated by a
comma, a semicolon or whitespace alone: every line of the shape
`<decimal> <decimal>` or `<decimal>;<decimal>` (optionally padded with
whitespace) is parsed by `parse_lat_lon` into the two decimal values, and in
`build_route_from_text` such a line becomes (for any resolver, so no
location-name lookup happens) the coordinate waypoint `WP{line_no}`. -/
theorem coord_fast_path_separators :
    (∀ (neg1 neg2 : Bool) (ip1 fp1 ip2 fp2 sep ws0 ws3 : List Char),
      ip1 ≠ [] → (∀ c ∈ ip1, c.isDigit = true) → (∀ c ∈ fp1, c.isDigit = true) →
      ip2 ≠ [] → (∀ c ∈ ip2, c.isDigit = true) → (∀ c ∈ fp2, c.isDigit = true) →
      (sep = [' '] ∨ sep = [';']) →
      (∀ c ∈ ws0, isPySpace c = true) → (∀ c ∈ ws3, isPySpace c = true) →
      parse_lat_lon_core
        (ws0 ++ renderDec neg1 ip1 fp1 ++ sep ++ renderDec neg2 ip2 fp2 ++ ws3) =
        some (renderedVal neg1 ip1 fp1, renderedVal neg2 ip2 fp2)) ∧
    (∀ (neg1 neg2 : Bool) (ip1 fp1 ip2 fp2 sep : List Char)
        (resolver : LocationResolver) (idx : ℕ),
      ip1 ≠ [] → (∀ c ∈ ip1, c.isDigit = true) → (∀ c ∈ fp1, c.isDigit = true) →
      ip2 ≠ [] → (∀ c ∈ ip2, c.isDigit = true) → (∀ c ∈ fp2, c.isDigit = true) →
      (sep = [' '] ∨ sep = [';']) →
      validate_lat_lon (renderedVal neg1 ip1 fp1) (renderedVal neg2 ip2 fp2) = [] →
      process_line resolver idx
        ⟨renderDec neg1 ip1 fp1 ++ sep ++ renderDec neg2 ip2 fp2⟩ =
        ([⟨"WP" ++ toString idx, renderedVal neg1 ip1 fp1,
          renderedVal neg2 ip2 fp2⟩], [])) ∧
    parse_lat_lon "45.1 29" = some (451/10, 29) ∧
    parse_lat_lon "45.1;29" = some (451/10, 29) ∧
    parse_lat_lon "45.1, 29" = some (451/10, 29) := by
  refine ⟨?_, ?_, ?_, ?_, ?_⟩
  · intro neg1 neg2 ip1 fp1 ip2 fp2 sep ws0 ws3 h1 h2 h3 h4 h5 h6 h7 h8 h9
    exact parse_lat_lon_core_render h1 h2 h3 h4 h5 h6 h7 h8 h9
  · intro neg1 neg2 ip1 fp1 ip2 fp2 sep resolver idx h1 h2 h3 h4 h5 h6 h7 h8
    exact process_line_coord_render h1 h2 h3 h4 h5 h6 h7 resolver idx h8
  · with_unfolding_all decide
  · with_unfolding_all decide
  · with_unfolding_all decide

/-- Witness for C10: the semicolon-separated line `"45;29"` becomes the
coordinate waypoint `WP3` with no resolver involvement. -/
theorem coord_fast_path_separators_witness :
    process_line noResolver 3 "45;29" = ([⟨"WP3", 45, 29⟩], []) := by
  have h := coord_fast_path_separators.2.1 false false ['4','5'] [] ['2','9'] []
    [';'] noResolver 3 (by decide) (by decide) (by decide) (by decide)
    (by decide) (by decide) (Or.inr rfl) (by with_unfolding_all decide)
  rw [show (⟨renderDec false ['4','5'] [] ++ [';'] ++
      renderDec false ['2','9'] []⟩ : String) = "45;29" from by
    with_unfolding_all decide] at h
  exact h.trans (by with_unfolding_all decide)

end NED
